import Mathlib

/-!
Verification of the `cargo doc-upload` command (`src/bin/cargo-doc-upload.rs`)
of the `cargo-travis` repository.

The binary is glue: it parses flags, reads Travis CI environment variables,
decides whether this invocation should publish documentation, resolves the
git remote URL, and hands a publish request to `cargo_travis::doc_upload`
(the publish engine, whose implementation is not part of the inspected
source; where a claim is about the engine we model it from the design
document).

The embedding below mirrors `execute` (lines 44-110 of the source): the
flags become an `Options` structure, the environment a partial map from the
four variable names used, and the observable outcome of a run an
`ExecResult` value recording which `return` (or panic) the function takes
and, when the engine is invoked, exactly the arguments it receives.
-/

namespace CargoDocUpload

/-- The deserialized docopt flags (struct `Options` in the source). -/
structure Options where
  flag_version : Bool
  flag_branch : List String
  flag_token : Option String
  flag_message : Option String
  flag_deploy : Option String
  flag_path : Option String
  flag_clobber_index : Bool
  flag_target : Option String
deriving DecidableEq, Repr

/-- The environment variables consulted by `execute`: `TRAVIS_BRANCH`,
`TRAVIS_PULL_REQUEST`, `TRAVIS_REPO_SLUG` and `GH_TOKEN`.  `none` models an
unset variable (`env::var` returning `Err`). -/
structure Env where
  travis_branch : Option String
  travis_pull_request : Option String
  travis_repo_slug : Option String
  gh_token : Option String
deriving DecidableEq, Repr

/-- The arguments `execute` passes to `cargo_travis::doc_upload`
(source lines 99-106). -/
structure PublishRequest where
  message : String
  origin : String
  gh_pages : String
  path : String
  local_doc_path : List String
  clobber_index : Bool
deriving DecidableEq, Repr

/-- The observable outcome of one run of `execute`:

* `versionPrinted` — the `--version` early return (line 52), `Ok(())`;
* `skipBranch b` — "Skipping branch b" printed, `Ok(())` (lines 63-64);
* `skipPR` — "Skipping PR" printed, `Ok(())` (lines 69-70);
* `panicMissing v` — the `.expect` on a missing variable `v` panics
  (lines 61, 67, 77), aborting the process;
* `publish req warned` — `doc_upload` is invoked with the fields of `req`;
  `warned` records whether the SSH-fallback warning was printed to stderr
  (lines 81-82). -/
inductive ExecResult where
  | versionPrinted : ExecResult
  | skipBranch : String → ExecResult
  | skipPR : ExecResult
  | panicMissing : String → ExecResult
  | publish : PublishRequest → Bool → ExecResult
deriving DecidableEq, Repr

/-- The allowed-branch list (source lines 55-59): the `--branch` flags, or
`["master"]` when none were supplied. -/
def branchesOf (o : Options) : List String :=
  if o.flag_branch.isEmpty then ["master"] else o.flag_branch

/-- Token resolution (source line 76): `options.flag_token.or_else(|| env::var("GH_TOKEN").ok())`. -/
def resolveToken (o : Options) (e : Env) : Option String :=
  match o.flag_token with
  | some t => some t
  | none => e.gh_token

/-- The remote URL (source lines 78-84). -/
def originOf (token : Option String) (slug : String) : String :=
  match token with
  | some t => "https://" ++ t ++ "@github.com/" ++ slug ++ ".git"
  | none => "git@github.com:" ++ slug ++ ".git"

/-- The local documentation directory (source lines 94-97), as path
components. -/
def localDocPathOf (o : Options) : List String :=
  match o.flag_target with
  | some v => ["target", v, "doc"]
  | none => ["target", "doc"]

/-- Shallow embedding of `execute` (source lines 44-110).  Each early
`return` and each `.expect` panic becomes the corresponding `ExecResult`
constructor; the guards appear in source order. -/
def execute (o : Options) (e : Env) : ExecResult :=
  if o.flag_version then .versionPrinted
  else
    match e.travis_branch with
    | none => .panicMissing "TRAVIS_BRANCH"
    | some branch =>
      if branch ∉ branchesOf o then .skipBranch branch
      else
        match e.travis_pull_request with
        | none => .panicMissing "TRAVIS_PULL_REQUEST"
        | some pr =>
          if pr ≠ "false" then .skipPR
          else
            match e.travis_repo_slug with
            | none => .panicMissing "TRAVIS_REPO_SLUG"
            | some slug =>
              .publish
                { message := o.flag_message.getD "Automatic Travis documentation build"
                  origin := originOf (resolveToken o e) slug
                  gh_pages := o.flag_deploy.getD "gh-pages"
                  path := o.flag_path.getD branch
                  local_doc_path := localDocPathOf o
                  clobber_index := o.flag_clobber_index }
                (resolveToken o e).isNone

/-- Whether the publish engine (`cargo_travis::doc_upload`) is invoked in
this outcome. -/
def invokesEngine : ExecResult → Bool
  | .publish _ _ => true
  | _ => false

/-- The process exit status determined by the outcome alone: `some true`
for the `Ok(())` returns, `some false` for a panic, and `none` when the
engine is invoked (the status then depends on `doc_upload`'s result,
source lines 99-109). -/
def exitOk : ExecResult → Option Bool
  | .versionPrinted => some true
  | .skipBranch _ => some true
  | .skipPR => some true
  | .panicMissing _ => some false
  | .publish _ _ => none

/-- Inversion helper: if a run invokes the engine, every guard of `execute`
passed, and the request fields are exactly the resolved flag/env values. -/
theorem execute_publish_inv (o : Options) (e : Env) (req : PublishRequest) (w : Bool)
    (h : execute o e = .publish req w) :
    o.flag_version = false ∧
    ∃ branch pr slug, e.travis_branch = some branch ∧ branch ∈ branchesOf o ∧
      e.travis_pull_request = some pr ∧ pr = "false" ∧ e.travis_repo_slug = some slug ∧
      req = { message := o.flag_message.getD "Automatic Travis documentation build"
              origin := originOf (resolveToken o e) slug
              gh_pages := o.flag_deploy.getD "gh-pages"
              path := o.flag_path.getD branch
              local_doc_path := localDocPathOf o
              clobber_index := o.flag_clobber_index } ∧
      w = (resolveToken o e).isNone := by
  by_cases hv : o.flag_version = true
  · simp [execute, hv] at h
  · rcases hbr : e.travis_branch with _ | branch
    · simp [execute, hv, hbr] at h
    · by_cases hmem : branch ∈ branchesOf o
      · rcases hpr : e.travis_pull_request with _ | pr
        · simp [execute, hv, hbr, hmem, hpr] at h
        · by_cases hfalse : pr = "false"
          · rcases hs : e.travis_repo_slug with _ | slug
            · simp [execute, hv, hbr, hmem, hpr, hfalse, hs] at h
            · simp only [execute, hv, hbr, hmem, hpr, hfalse, hs, Bool.false_eq_true,
                if_false, not_true_eq_false, ite_false, ne_eq,
                ExecResult.publish.injEq] at h
              exact ⟨by simpa using hv, branch, pr, slug, rfl, hmem, rfl, hfalse, rfl,
                h.1.symm, h.2.symm⟩
          · simp [execute, hv, hbr, hmem, hpr, hfalse] at h
      · simp [execute, hv, hbr, hmem] at h

/-! ## Publish engine model

`cargo_travis::doc_upload` is not part of the inspected source; the design
document (§4.2) specifies its tree transformation, which the following
definitions model.  A git tree is a map from paths (component lists) to
file contents. -/

/-- A git tree: a map from paths to file contents. -/
def Tree := List String → Option String

/-- Modelled from the spec: step 3 of §4.2 of the design document — the
engine deletes the existing `subPath` subtree and, when `clobberIndex`,
the root `index.html` (the implementation, `cargo_travis::doc_upload`, is
not in the inspected source). -/
def stageDeletions (t : Tree) (subPath : List String) (clobberIndex : Bool) : Tree :=
  fun p =>
    if subPath.isPrefixOf p then none
    else if clobberIndex = true ∧ p = ["index.html"] then none
    else t p

/-- Modelled from the spec: step 4 of §4.2 of the design document — every
file of `localDocs` is copied into the workspace at `subPath`, preserving
relative structure, as a full replacement of that one subtree. -/
def stageCopy (t : Tree) (subPath : List String) (localDocs : Tree) : Tree :=
  fun p =>
    if subPath.isPrefixOf p then localDocs (p.drop subPath.length)
    else t p

/-- Modelled from the spec: the tree of the commit produced by one publish
(§4.2 steps 2-5) — the fetched tree with the `subPath` subtree (and, when
`clobberIndex`, the root `index.html`) deleted and the local documentation
copied in at `subPath`. -/
def publishTree (t : Tree) (subPath : List String) (localDocs : Tree)
    (clobberIndex : Bool) : Tree :=
  stageCopy (stageDeletions t subPath clobberIndex) subPath localDocs

/-- C1: every pre-existing file at a path outside `subPath`, and distinct
from the root `index.html` unless `clobberIndex` is false, is byte-unchanged
in the tree of the resulting commit. -/
theorem publish_frame (t localDocs : Tree) (subPath p : List String)
    (clobberIndex : Bool) (hsub : subPath.isPrefixOf p = false)
    (hidx : p ≠ ["index.html"] ∨ clobberIndex = false) :
    publishTree t subPath localDocs clobberIndex p = t p := by
  unfold publishTree stageCopy stageDeletions
  rw [hsub]
  simp only [Bool.false_eq_true, if_false]
  rcases hidx with h | h
  · simp [h]
  · simp [h]

/-- C1 witness: a concrete tree with a file `keep.txt` outside the
sub-path `master`, published with `clobberIndex = true`, keeps `keep.txt`
unchanged. -/
theorem publish_frame_witness :
    List.isPrefixOf ["master"] ["keep.txt"] = false ∧
      publishTree (fun p => if p = ["keep.txt"] then some "k" else none)
        ["master"] (fun _ => some "doc") true ["keep.txt"]
        = (fun p : List String => if p = ["keep.txt"] then some "k" else none) ["keep.txt"] :=
  ⟨by decide,
    publish_frame (fun p => if p = ["keep.txt"] then some "k" else none)
      (fun _ => some "doc") ["master"] ["keep.txt"] true (by decide)
      (Or.inl (by decide))⟩

/-- C2 counterexample: with the default allowed set and current branch
"feature-x", a pull-request invocation (`TRAVIS_PULL_REQUEST = "123"`)
reports the branch skip, not the pull-request skip: the branch guard runs
first (source lines 62-65 before 67-71). -/
theorem pr_skip_reason_counterexample :
    execute (Options.mk false [] none none none none false none)
        (Env.mk (some "feature-x") (some "123") (some "user/repo") none)
      = ExecResult.skipBranch "feature-x" ∧
    execute (Options.mk false [] none none none none false none)
        (Env.mk (some "feature-x") (some "123") (some "user/repo") none)
      ≠ ExecResult.skipPR := by
  constructor
  · rfl
  · decide

/-- C2 amended: a pull-request invocation never publishes; it skips with
reason `IsPullRequest` when the current branch is in the allowed set, and
with reason `NotAllowedBranch` otherwise (the branch guard runs first). -/
theorem pull_request_never_publishes (o : Options) (e : Env) (b pr : String)
    (hv : o.flag_version = false) (hb : e.travis_branch = some b)
    (hpr : e.travis_pull_request = some pr) (hne : pr ≠ "false") :
    (b ∈ branchesOf o → execute o e = .skipPR) ∧
    (b ∉ branchesOf o → execute o e = .skipBranch b) ∧
    (∀ req w, execute o e ≠ .publish req w) := by
  refine ⟨?_, ?_, ?_⟩
  · intro hmem
    simp [execute, hv, hb, hpr, hmem, hne]
  · intro hmem
    simp [execute, hv, hb, hmem]
  · intro req w hcon
    obtain ⟨_, b', pr', slug, hb', hmem', hpr', hpf, _⟩ :=
      execute_publish_inv o e req w hcon
    rw [hpr] at hpr'
    injection hpr' with hh
    exact hne (hh.trans hpf)

/-- C2 amended witness: on branch "master" (allowed by default) with
`TRAVIS_PULL_REQUEST = "123"`, the run skips with the pull-request
reason. -/
theorem pull_request_never_publishes_witness :
    execute (Options.mk false [] none none none none false none)
        (Env.mk (some "master") (some "123") (some "user/repo") none)
      = ExecResult.skipPR :=
  (pull_request_never_publishes
      (Options.mk false [] none none none none false none)
      (Env.mk (some "master") (some "123") (some "user/repo") none)
      "master" "123" rfl rfl rfl (by decide)).1 (by decide)

/-- C3: whenever the eligibility guards decide a skip — current branch not
in the allowed set, or pull-request variable not "false" — `execute`
returns the corresponding informational skip, an `Ok` exit, and the
publish engine is not invoked. -/
theorem skip_is_success (o : Options) (e : Env) (b : String)
    (hv : o.flag_version = false) (hb : e.travis_branch = some b) :
    (b ∉ branchesOf o →
      execute o e = .skipBranch b ∧ exitOk (execute o e) = some true ∧
        invokesEngine (execute o e) = false) ∧
    (∀ pr, b ∈ branchesOf o → e.travis_pull_request = some pr → pr ≠ "false" →
      execute o e = .skipPR ∧ exitOk (execute o e) = some true ∧
        invokesEngine (execute o e) = false) := by
  constructor
  · intro hmem
    have h1 : execute o e = .skipBranch b := by
      simp [execute, hv, hb, hmem]
    exact ⟨h1, by rw [h1]; rfl, by rw [h1]; rfl⟩
  · intro pr hmem hpr hne
    have h1 : execute o e = .skipPR := by
      simp [execute, hv, hb, hpr, hmem, hne]
    exact ⟨h1, by rw [h1]; rfl, by rw [h1]; rfl⟩

/-- C3 witness: branch "feature-x" against the default allowed set is a
successful branch skip that does not invoke the engine. -/
theorem skip_is_success_witness :
    execute (Options.mk false [] none none none none false none)
        (Env.mk (some "feature-x") (some "false") (some "user/repo") none)
      = ExecResult.skipBranch "feature-x" ∧
    exitOk (execute (Options.mk false [] none none none none false none)
        (Env.mk (some "feature-x") (some "false") (some "user/repo") none))
      = some true ∧
    invokesEngine (execute (Options.mk false [] none none none none false none)
        (Env.mk (some "feature-x") (some "false") (some "user/repo") none))
      = false :=
  (skip_is_success (Options.mk false [] none none none none false none)
      (Env.mk (some "feature-x") (some "false") (some "user/repo") none)
      "feature-x" rfl rfl).1 (by decide)

/-- C4: with no `--branch` flags the allowed set is exactly `["master"]`;
current branch "master" passes the branch guard (the result is never a
branch skip), and any other current branch is skipped as not allowed. -/
theorem default_branch_set (o : Options) (e : Env) (b : String)
    (hv : o.flag_version = false) (hfb : o.flag_branch = [])
    (hb : e.travis_branch = some b) :
    branchesOf o = ["master"] ∧
    (b = "master" → ∀ b', execute o e ≠ .skipBranch b') ∧
    (b ≠ "master" → execute o e = .skipBranch b) := by
  have hset : branchesOf o = ["master"] := by simp [branchesOf, hfb]
  refine ⟨hset, ?_, ?_⟩
  · intro hbm b'
    have hmem : b ∈ branchesOf o := by rw [hset, hbm]; exact List.mem_singleton.2 rfl
    rcases hpr : e.travis_pull_request with _ | pr
    · simp [execute, hv, hb, hmem, hpr]
    · by_cases hf : pr = "false"
      · rcases hs : e.travis_repo_slug with _ | slug
        · simp [execute, hv, hb, hmem, hpr, hf, hs]
        · simp [execute, hv, hb, hmem, hpr, hf, hs]
      · simp [execute, hv, hb, hmem, hpr, hf]
  · intro hbm
    have hmem : b ∉ branchesOf o := by
      rw [hset]
      simp [hbm]
    simp [execute, hv, hb, hmem]

/-- C4 witness: with no `--branch` flags, branch "dev" is skipped as not
allowed and the allowed set is `["master"]`. -/
theorem default_branch_set_witness :
    branchesOf (Options.mk false [] none none none none false none) = ["master"] ∧
    execute (Options.mk false [] none none none none false none)
        (Env.mk (some "dev") (some "false") (some "user/repo") none)
      = ExecResult.skipBranch "dev" :=
  ⟨(default_branch_set (Options.mk false [] none none none none false none)
      (Env.mk (some "dev") (some "false") (some "user/repo") none)
      "dev" rfl rfl rfl).1,
    (default_branch_set (Options.mk false [] none none none none false none)
      (Env.mk (some "dev") (some "false") (some "user/repo") none)
      "dev" rfl rfl rfl).2.2 (by decide)⟩

/-- C5: when the engine is invoked, the remote sub-path equals the value of
`--path` when supplied, and the current `TRAVIS_BRANCH` value otherwise. -/
theorem subpath_resolution (o : Options) (e : Env) (req : PublishRequest)
    (w : Bool) (branch : String) (h : execute o e = .publish req w)
    (hb : e.travis_branch = some branch) :
    (o.flag_path = none → req.path = branch) ∧
    (∀ p, o.flag_path = some p → req.path = p) := by
  obtain ⟨hv, b, pr, slug, hb', hmem, hpr, hpf, hs, hreq, hw⟩ :=
    execute_publish_inv o e req w h
  rw [hb] at hb'
  injection hb' with hbb
  constructor
  · intro hp
    rw [hreq, hbb]
    simp [hp]
  · intro p hp
    rw [hreq]
    simp [hp]

/-- C5 witness: with no `--path`, the request's sub-path equals the
current branch "master". -/
theorem subpath_resolution_witness :
    (PublishRequest.mk "Automatic Travis documentation build"
        "https://tok@github.com/user/repo.git" "gh-pages" "master"
        ["target", "doc"] false).path = "master" :=
  (subpath_resolution (Options.mk false [] (some "tok") none none none false none)
      (Env.mk (some "master") (some "false") (some "user/repo") none)
      (PublishRequest.mk "Automatic Travis documentation build"
        "https://tok@github.com/user/repo.git" "gh-pages" "master"
        ["target", "doc"] false)
      false "master" (by decide) rfl).1 rfl

/-- C6: when the engine is invoked, an explicit `--token` wins even when
`$GH_TOKEN` is set and yields the HTTPS token URL with no warning; an
environment token alone yields the same URL form; with no token at all the
origin is the SSH endpoint and the stderr warning is emitted. -/
theorem origin_resolution (o : Options) (e : Env) (req : PublishRequest)
    (w : Bool) (slug : String) (h : execute o e = .publish req w)
    (hs : e.travis_repo_slug = some slug) :
    (∀ t, o.flag_token = some t →
      req.origin = "https://" ++ t ++ "@github.com/" ++ slug ++ ".git" ∧ w = false) ∧
    (o.flag_token = none → ∀ t, e.gh_token = some t →
      req.origin = "https://" ++ t ++ "@github.com/" ++ slug ++ ".git" ∧ w = false) ∧
    (o.flag_token = none → e.gh_token = none →
      req.origin = "git@github.com:" ++ slug ++ ".git" ∧ w = true) := by
  obtain ⟨hv, b, pr, slug', hb', hmem, hpr, hpf, hs', hreq, hw⟩ :=
    execute_publish_inv o e req w h
  rw [hs] at hs'
  injection hs' with hss
  subst hss
  refine ⟨?_, ?_, ?_⟩
  · intro t ht
    have htok : resolveToken o e = some t := by simp [resolveToken, ht]
    constructor
    · rw [hreq]
      simp [originOf, htok]
    · rw [hw, htok]
      rfl
  · intro ht t hg
    have htok : resolveToken o e = some t := by simp [resolveToken, ht, hg]
    constructor
    · rw [hreq]
      simp [originOf, htok]
    · rw [hw, htok]
      rfl
  · intro ht hg
    have htok : resolveToken o e = none := by simp [resolveToken, ht, hg]
    constructor
    · rw [hreq]
      simp [originOf, htok]
    · rw [hw, htok]
      rfl

/-- C6 witness: an explicit `--token "cli"` wins over `$GH_TOKEN = "envtok"`
and produces the HTTPS token URL with no warning. -/
theorem origin_resolution_witness :
    (PublishRequest.mk "Automatic Travis documentation build"
        "https://cli@github.com/user/repo.git" "gh-pages" "master"
        ["target", "doc"] false).origin
      = "https://" ++ "cli" ++ "@github.com/" ++ "user/repo" ++ ".git" ∧
    false = false :=
  (origin_resolution (Options.mk false [] (some "cli") none none none false none)
      (Env.mk (some "master") (some "false") (some "user/repo") (some "envtok"))
      (PublishRequest.mk "Automatic Travis documentation build"
        "https://cli@github.com/user/repo.git" "gh-pages" "master"
        ["target", "doc"] false)
      false "user/repo" (by decide) rfl).1 "cli" rfl

/-- C7 counterexample: the code does not special-case an empty current
branch — with `--branch ""` supplied, an empty `TRAVIS_BRANCH` passes the
branch guard and the run publishes instead of skipping. -/
theorem empty_branch_counterexample :
    execute (Options.mk false [""] none none none none false none)
        (Env.mk (some "") (some "false") (some "user/repo") none)
      = ExecResult.publish
          (PublishRequest.mk "Automatic Travis documentation build"
            "git@github.com:user/repo.git" "gh-pages" ""
            ["target", "doc"] false) true ∧
    execute (Options.mk false [""] none none none none false none)
        (Env.mk (some "") (some "false") (some "user/repo") none)
      ≠ ExecResult.skipBranch "" := by
  constructor
  · rfl
  · decide

/-- C7 amended: an empty current branch is skipped as a not-allowed branch
whenever the empty string is not among the allowed branches — in
particular under the default set `["master"]` — but it is not
special-cased: membership of `""` in the allowed set decides. -/
theorem empty_branch_skip (o : Options) (e : Env)
    (hv : o.flag_version = false) (hb : e.travis_branch = some "")
    (hmem : "" ∉ branchesOf o) :
    execute o e = .skipBranch "" := by
  simp [execute, hv, hb, hmem]

/-- C7 amended witness: an empty branch under the default allowed set is
skipped. -/
theorem empty_branch_skip_witness :
    execute (Options.mk false [] none none none none false none)
        (Env.mk (some "") (some "false") (some "user/repo") none)
      = ExecResult.skipBranch "" :=
  empty_branch_skip (Options.mk false [] none none none none false none)
    (Env.mk (some "") (some "false") (some "user/repo") none)
    rfl rfl (by decide)

/-- C8 counterexample: with `TRAVIS_PULL_REQUEST` and `TRAVIS_REPO_SLUG`
both absent but the current branch "feature-x" not allowed, the run does
not fail — it is a successful branch skip; the variables are read lazily,
not at startup. -/
theorem missing_var_counterexample :
    execute (Options.mk false [] none none none none false none)
        (Env.mk (some "feature-x") none none none)
      = ExecResult.skipBranch "feature-x" ∧
    exitOk (execute (Options.mk false [] none none none none false none)
        (Env.mk (some "feature-x") none none none))
      = some true := by
  constructor
  · rfl
  · rfl

/-- C8 amended: each required variable causes an immediate panic at the
point it is first read — `TRAVIS_BRANCH` unconditionally (absent
`--version`), `TRAVIS_PULL_REQUEST` once the branch guard passes,
`TRAVIS_REPO_SLUG` once the pull-request guard passes — always before the
publish engine is invoked; invocations that skip earlier succeed despite
the absence. -/
theorem missing_var_fault (o : Options) (e : Env)
    (hv : o.flag_version = false) :
    (e.travis_branch = none → execute o e = .panicMissing "TRAVIS_BRANCH") ∧
    (∀ b, e.travis_branch = some b → b ∈ branchesOf o →
      e.travis_pull_request = none →
      execute o e = .panicMissing "TRAVIS_PULL_REQUEST") ∧
    (∀ b, e.travis_branch = some b → b ∈ branchesOf o →
      e.travis_pull_request = some "false" → e.travis_repo_slug = none →
      execute o e = .panicMissing "TRAVIS_REPO_SLUG") ∧
    (∀ v, execute o e = .panicMissing v →
      invokesEngine (execute o e) = false) := by
  refine ⟨?_, ?_, ?_, ?_⟩
  · intro hb
    simp [execute, hv, hb]
  · intro b hb hmem hpr
    simp [execute, hv, hb, hmem, hpr]
  · intro b hb hmem hpr hs
    simp [execute, hv, hb, hmem, hpr, hs]
  · intro v h
    rw [h]
    rfl

/-- C8 amended witness: with every variable absent, the run panics on
`TRAVIS_BRANCH`. -/
theorem missing_var_fault_witness :
    execute (Options.mk false [] none none none none false none)
        (Env.mk none none none none)
      = ExecResult.panicMissing "TRAVIS_BRANCH" :=
  (missing_var_fault (Options.mk false [] none none none none false none)
      (Env.mk none none none none) rfl).1 rfl

/-- C9 counterexample: `--message ""` is passed through unchanged, so the
commit message handed to the engine is empty — non-emptiness is not
enforced. -/
theorem commit_message_counterexample :
    execute (Options.mk false [] (some "tok") (some "") none none false none)
        (Env.mk (some "master") (some "false") (some "user/repo") none)
      = ExecResult.publish
          (PublishRequest.mk "" "https://tok@github.com/user/repo.git"
            "gh-pages" "master" ["target", "doc"] false) false ∧
    (PublishRequest.mk "" "https://tok@github.com/user/repo.git"
        "gh-pages" "master" ["target", "doc"] false).message = "" := by
  constructor
  · rfl
  · rfl

/-- C9 amended: when the engine is invoked, the commit message is the
fixed automatic message (which is non-empty) when `--message` is not
supplied, and exactly the supplied value — possibly empty — when it is. -/
theorem commit_message_resolution (o : Options) (e : Env)
    (req : PublishRequest) (w : Bool) (h : execute o e = .publish req w) :
    (o.flag_message = none →
      req.message = "Automatic Travis documentation build" ∧
        req.message ≠ "") ∧
    (∀ m, o.flag_message = some m → req.message = m) := by
  obtain ⟨hv, b, pr, slug, hb', hmem, hpr, hpf, hs, hreq, hw⟩ :=
    execute_publish_inv o e req w h
  constructor
  · intro hm
    rw [hreq]
    constructor
    · simp [hm]
    · simp [hm]
  · intro m hm
    rw [hreq]
    simp [hm]

/-- C9 amended witness: with no `--message`, the engine receives the fixed
non-empty automatic message. -/
theorem commit_message_resolution_witness :
    (PublishRequest.mk "Automatic Travis documentation build"
        "https://tok@github.com/user/repo.git" "gh-pages" "master"
        ["target", "doc"] false).message
      = "Automatic Travis documentation build" ∧
    (PublishRequest.mk "Automatic Travis documentation build"
        "https://tok@github.com/user/repo.git" "gh-pages" "master"
        ["target", "doc"] false).message ≠ "" :=
  (commit_message_resolution
      (Options.mk false [] (some "tok") none none none false none)
      (Env.mk (some "master") (some "false") (some "user/repo") none)
      (PublishRequest.mk "Automatic Travis documentation build"
        "https://tok@github.com/user/repo.git" "gh-pages" "master"
        ["target", "doc"] false)
      false (by decide)).1 rfl

/-- C10: once the pull-request variable is read, publishing happens only
when it is exactly "false": any other value yields the successful
pull-request skip, and an invocation that invokes the engine must have
read exactly "false". -/
theorem pr_exact_false_gate (o : Options) (e : Env) (b pr : String)
    (hv : o.flag_version = false) (hb : e.travis_branch = some b)
    (hmem : b ∈ branchesOf o) (hpr : e.travis_pull_request = some pr) :
    (pr ≠ "false" → execute o e = .skipPR) ∧
    (∀ req w, execute o e = .publish req w → pr = "false") := by
  constructor
  · intro hne
    simp [execute, hv, hb, hmem, hpr, hne]
  · intro req w h
    obtain ⟨_, b', pr', slug, hb', hmem', hpr', hpf, _⟩ :=
      execute_publish_inv o e req w h
    rw [hpr] at hpr'
    injection hpr' with hh
    exact hh.trans hpf

/-- C10 witness: `TRAVIS_PULL_REQUEST = "False"` (capitalised) is not the
exact string "false" and yields the pull-request skip. -/
theorem pr_exact_false_gate_witness :
    execute (Options.mk false [] none none none none false none)
        (Env.mk (some "master") (some "False") (some "user/repo") none)
      = ExecResult.skipPR :=
  (pr_exact_false_gate (Options.mk false [] none none none none false none)
      (Env.mk (some "master") (some "False") (some "user/repo") none)
      "master" "False" rfl rfl (by decide) rfl).1 (by decide)

end CargoDocUpload
